import Mathlib

/-!
Verification of the space-modeller IFC viewer against its specification.

The definitions below are a shallow embedding of the TypeScript sources:
`shared/utils/file.utils.ts`, `shared/services/notification.service.ts`,
`shared/constants/app.constants.ts`, `features/ifc-viewer/components/ifc-viewer.component.ts`
and `features/ifc-viewer/services/ifc-viewer.service.ts`.  Pure functions become
Lean functions; methods that mutate service/component fields become explicit
state-passing functions; calls into the external engine (worker, loader, DOM)
are modelled by oracle parameters carrying the external call's outcome; side
effects that matter to the claims (scene mutation, disposal, notifications,
downloads, engine calls) are recorded in explicit event lists.
-/

/- ----------------------------------------------------------------- -/
/- Constants from shared/constants/app.constants.ts                  -/
/- ----------------------------------------------------------------- -/

/-- FILE_VALIDATION.MAX_FILE_SIZE: maximum file size in bytes (100 MB). -/
def FILE_VALIDATION_MAX_FILE_SIZE : Nat := 100 * 1024 * 1024

/-- FILE_VALIDATION.ALLOWED_EXTENSIONS: allowed file extensions for IFC files. -/
def FILE_VALIDATION_ALLOWED_EXTENSIONS : List String := [".ifc"]

/-- TIMING.NOTIFICATION_DURATION (ms). -/
def TIMING_NOTIFICATION_DURATION : Nat := 3000

/-- TIMING.WORKER_INIT_TIMEOUT (ms). -/
def TIMING_WORKER_INIT_TIMEOUT : Nat := 5000

/-- TIMING.WORKER_POLL_INTERVAL (ms). -/
def TIMING_WORKER_POLL_INTERVAL : Nat := 100

/-- TIMING.CAMERA_FIT_DELAY (ms). -/
def TIMING_CAMERA_FIT_DELAY : Nat := 200

/-- ERROR_MESSAGES.INVALID_FILE_TYPE. -/
def ERROR_MESSAGES_INVALID_FILE_TYPE : String := "Please select a valid IFC file"

/-- ERROR_MESSAGES.FILE_TOO_LARGE. -/
def ERROR_MESSAGES_FILE_TOO_LARGE : String := "File size exceeds the maximum allowed size"

/-- ERROR_MESSAGES.NO_MODEL_LOADED. -/
def ERROR_MESSAGES_NO_MODEL_LOADED : String := "No model loaded. Please load an IFC file first"

/-- ERROR_MESSAGES.EXPORT_FAILED. -/
def ERROR_MESSAGES_EXPORT_FAILED : String := "Failed to export fragments. Check console for details"

/-- ERROR_MESSAGES.LOAD_FAILED. -/
def ERROR_MESSAGES_LOAD_FAILED : String := "Error loading IFC file"

/-- SUCCESS_MESSAGES.FILE_LOADED template. -/
def SUCCESS_MESSAGES_FILE_LOADED (fileName : String) : String :=
  "Successfully loaded: " ++ fileName

/-- SUCCESS_MESSAGES.FILE_EXPORTED template. -/
def SUCCESS_MESSAGES_FILE_EXPORTED (fileName : String) : String :=
  "Successfully exported " ++ fileName ++ ".frag"

/- ----------------------------------------------------------------- -/
/- shared/utils/file.utils.ts                                        -/
/- ----------------------------------------------------------------- -/

/-- Character class of the regex /[/\\]/ in sanitizeFileName. -/
def isPathSeparatorChar (c : Char) : Bool :=
  c = '/' || c = '\\'

/-- Character class of the regex /[<>:"|?*\x00-\x1F]/ in sanitizeFileName. -/
def isDangerousChar (c : Char) : Bool :=
  c = '<' || c = '>' || c = ':' || c = '\"' || c = '|' || c = '?' || c = '*' || c.val ≤ 31

/-- Whitespace recognised by JavaScript String.prototype.trim (ASCII part plus
NBSP and BOM, the characters that can realistically occur in a file name). -/
def isJsWhitespaceChar (c : Char) : Bool :=
  c = ' ' || c = '\t' || c = '\n' || c = '\r' || c = '\x0b' || c = '\x0c' ||
    c = '\u00A0' || c = '\uFEFF'

/-- Drop matching characters from the end of a list (used for /\.+$/ and trim). -/
def dropWhileEnd (p : Char → Bool) (l : List Char) : List Char :=
  (l.reverse.dropWhile p).reverse

/-- JavaScript String.prototype.trim on a character list. -/
def jsTrim (l : List Char) : List Char :=
  dropWhileEnd isJsWhitespaceChar (l.dropWhile isJsWhitespaceChar)

/-- sanitizeFileName: strips path separators, dangerous characters, leading and
trailing dots, trims whitespace and truncates to 255 characters, in the exact
order of the chained replace/trim/substring calls of the source. -/
def sanitizeFileName (fileName : String) : String :=
  ⟨(jsTrim (dropWhileEnd (fun c => c = '.')
      (((fileName.data.filter (fun c => !isPathSeparatorChar c)).filter
          (fun c => !isDangerousChar c)).dropWhile (fun c => c = '.')))).take 255⟩

/-- JavaScript String.prototype.toLowerCase (ASCII case folding). -/
def toLowerCaseStr (s : String) : String :=
  ⟨s.data.map Char.toLower⟩

/-- Helper for String.prototype.lastIndexOf: walks the list keeping the index of
the last occurrence seen so far; -1 when absent, as in JavaScript. -/
def lastIndexOfAux (target : Char) : List Char → Nat → Int → Int
  | [], _, acc => acc
  | c :: cs, i, acc => lastIndexOfAux target cs (i + 1) (if c = target then (i : Int) else acc)

/-- fileName.lastIndexOf(target), returning -1 when the character is absent. -/
def lastIndexOfChar (s : String) (target : Char) : Int :=
  lastIndexOfAux target s.data 0 (-1)

/-- getFileExtension: extension including the dot, lowercased, or the empty
string when the last dot is absent or at index 0 (lastDot > 0 test). -/
def getFileExtension (fileName : String) : String :=
  let lastDot := lastIndexOfChar fileName '.'
  if 0 < lastDot then toLowerCaseStr ⟨fileName.data.drop lastDot.toNat⟩ else ""

/-- getFileNameWithoutExtension. -/
def getFileNameWithoutExtension (fileName : String) : String :=
  let lastDot := lastIndexOfChar fileName '.'
  if 0 < lastDot then ⟨fileName.data.take lastDot.toNat⟩ else fileName

/-- hasAllowedExtension: allowedExtensions.some(allowed => extension === allowed.toLowerCase()). -/
def hasAllowedExtension (fileName : String) (allowedExtensions : List String) : Bool :=
  let extension := getFileExtension fileName
  allowedExtensions.any (fun allowed => extension = toLowerCaseStr allowed)

/- ----------------------------------------------------------------- -/
/- shared/services/notification.service.ts                           -/
/- ----------------------------------------------------------------- -/

/-- Notification severity levels. -/
inductive NotificationType
  | success
  | error
  | warning
  | info
  deriving DecidableEq, Repr

/-- A notification message as held in the service's signal. -/
structure Notification where
  id : String
  type : NotificationType
  message : String
  duration : Nat
  deriving DecidableEq, Repr

/-- NotificationService.show: appends a new notification to the list; a
positive duration also schedules an auto-dismiss timer (returned flag). -/
def showNotification (t : NotificationType) (message : String) (duration : Nat)
    (newId : String) (notifications : List Notification) : List Notification × Bool :=
  (notifications ++ [{ id := newId, type := t, message := message, duration := duration }],
   decide (0 < duration))

/-- NotificationService.dismiss: notifications.filter(n => n.id !== id). -/
def dismiss (id : String) (notifications : List Notification) : List Notification :=
  notifications.filter (fun n => n.id != id)

/- ----------------------------------------------------------------- -/
/- shared/models/ifc-class.model.ts and the component's class logic  -/
/- ----------------------------------------------------------------- -/

/-- IfcClass: an IFC category with its visibility state. -/
structure IfcClass where
  name : String
  visible : Bool
  itemIds : List Nat
  deriving DecidableEq, Repr

/-- Default value used to read a found index out of the class array (the source
indexes with a findIndex result that is always in bounds). -/
def defaultIfcClass : IfcClass := { name := "", visible := false, itemIds := [] }

/-- Array.prototype.findIndex, tracking the running index. -/
def findIndexAux (p : IfcClass → Bool) : List IfcClass → Nat → Option Nat
  | [], _ => none
  | c :: cs, i => if p c then some i else findIndexAux p cs (i + 1)

/-- classes.findIndex(p). -/
def findIndexIfc (p : IfcClass → Bool) (l : List IfcClass) : Option Nat :=
  findIndexAux p l 0

/-- The event payload of the class-filter visibility toggle. -/
structure ClassVisibilityEvent where
  className : String
  visible : Bool

/-- IfcViewerComponent.onClassVisibilityChange: finds the class by name; when
absent only a warning is logged; when found, calls setItemsVisible with that
class's item ids and the new flag (recorded in the returned call list) and
replaces exactly that entry in the class list. -/
def onClassVisibilityChange (event : ClassVisibilityEvent) (classes : List IfcClass) :
    List IfcClass × List (List Nat × Bool) :=
  match findIndexIfc (fun c => c.name = event.className) classes with
  | none => (classes, [])
  | some classIndex =>
    let ifcClass := classes.getD classIndex defaultIfcClass
    (classes.set classIndex { ifcClass with visible := event.visible },
     [(ifcClass.itemIds, event.visible)])

/-- Lexicographic code-point comparison on character lists: the order
localeCompare induces on the ASCII category names that occur here. -/
def charListLt : List Char → List Char → Bool
  | [], [] => false
  | [], _ :: _ => true
  | _ :: _, [] => false
  | a :: as, b :: bs =>
    if a.toNat < b.toNat then true
    else if b.toNat < a.toNat then false
    else charListLt as bs

/-- The comparator a.name.localeCompare(b.name) < 0 used by the class sort. -/
def nameLt (s t : String) : Bool := charListLt s.data t.data

/-- Insertion step of a stable ascending sort by class name, mirroring
Array.prototype.sort with the localeCompare comparator (ASCII names). -/
def insertByName (c : IfcClass) : List IfcClass → List IfcClass
  | [] => [c]
  | d :: ds => if nameLt d.name c.name then d :: insertByName c ds else c :: d :: ds

/-- classes.sort((a, b) => a.name.localeCompare(b.name)) as a stable sort. -/
def sortByName : List IfcClass → List IfcClass
  | [] => []
  | c :: cs => insertByName c (sortByName cs)

/-- The pure core of IfcViewerComponent.loadIfcClasses: build IfcClass records
from the engine's category and item queries (map), drop classes with no items
(filter), and sort alphabetically.  categoryItems is the engine's
category-to-item-ids map, defaultHiddenClasses is IFC_CLASS_CONFIG.DEFAULT_HIDDEN_CLASSES. -/
def buildIfcClasses (categories : List String) (categoryItems : List (String × List Nat))
    (defaultHiddenClasses : List String) : List IfcClass :=
  sortByName ((categories.map (fun category =>
      { name := category,
        visible := !(defaultHiddenClasses.contains category),
        itemIds := ((categoryItems.find? (fun p => p.1 = category)).map Prod.snd).getD [] })).filter
    (fun ifcClass => decide (0 < ifcClass.itemIds.length)))

/-- Calls made against the viewer service by the component. -/
inductive ViewerCall
  | loadIfc (fileName : String)
  | getCategoriesCall
  | getItemsOfCategoriesCall (categories : List String)
  | setItemsVisibleCall (itemIds : List Nat) (visible : Bool)
  deriving DecidableEq, Repr

/-- IfcViewerComponent.loadIfcClasses: queries categories (empty result leaves
the class list untouched), builds the class list, stores it, and applies each
class's visibility to the engine in order.  The method's catch branch cannot
fire for these calls because the service catches engine errors internally and
returns empty results. -/
def loadIfcClassesRun (categories : List String) (categoryItems : List (String × List Nat))
    (defaultHiddenClasses : List String) (prior : List IfcClass) :
    List IfcClass × List (NotificationType × String) × List ViewerCall :=
  if categories.isEmpty then
    (prior, [], [ViewerCall.getCategoriesCall])
  else
    let ifcClasses := buildIfcClasses categories categoryItems defaultHiddenClasses
    (ifcClasses, [],
      ViewerCall.getCategoriesCall :: ViewerCall.getItemsOfCategoriesCall categories ::
        ifcClasses.map (fun c => ViewerCall.setItemsVisibleCall c.itemIds c.visible))

/- ----------------------------------------------------------------- -/
/- IfcViewerComponent.onFileSelected                                 -/
/- ----------------------------------------------------------------- -/

/-- The selected file: sanitized-relevant data only (name and byte size). -/
structure FileInfo where
  name : String
  size : Nat
  deriving DecidableEq, Repr

/-- The component's signal state touched by file loading. -/
structure ComponentState where
  isLoading : Bool
  currentFileName : String
  ifcClasses : List IfcClass
  deriving DecidableEq, Repr

/-- Oracle outcomes of the external calls made during a file-load run:
readFileAsArrayBuffer, IfcViewerService.loadIfcFile (which can reject, return
null, or return a model id), and the service's category/item queries used by
loadIfcClasses.  defaultHiddenClasses carries IFC_CLASS_CONFIG.DEFAULT_HIDDEN_CLASSES. -/
structure FileLoadEnv where
  readResult : Except String Nat
  loadResult : Except String (Option Nat)
  categories : List String
  categoryItems : List (String × List Nat)
  defaultHiddenClasses : List String

/-- IfcViewerComponent.onFileSelected: validates the sanitized name's extension
(warning notification on failure) and the byte size (error notification on
failure) before any service call or state change; then sets the loading flag
and file name, reads and loads the file, reporting success or error, loading
the class list on success; the finally block always clears the loading flag. -/
def onFileSelected (file : Option FileInfo) (env : FileLoadEnv) (st : ComponentState) :
    ComponentState × List (NotificationType × String) × List ViewerCall :=
  match file with
  | none => (st, [], [])
  | some f =>
    let sanitizedName := sanitizeFileName f.name
    if !hasAllowedExtension sanitizedName FILE_VALIDATION_ALLOWED_EXTENSIONS then
      (st, [(NotificationType.warning, ERROR_MESSAGES_INVALID_FILE_TYPE)], [])
    else if FILE_VALIDATION_MAX_FILE_SIZE < f.size then
      (st, [(NotificationType.error, ERROR_MESSAGES_FILE_TOO_LARGE)], [])
    else
      let st1 := { st with isLoading := true, currentFileName := sanitizedName }
      match env.readResult with
      | Except.error msg =>
        ({ st1 with isLoading := false },
         [(NotificationType.error,
           "Error loading IFC file: " ++ msg ++ ". Check console for details.")], [])
      | Except.ok _ =>
        let modelName := getFileNameWithoutExtension sanitizedName
        match env.loadResult with
        | Except.error msg =>
          ({ st1 with isLoading := false },
           [(NotificationType.error,
             "Error loading IFC file: " ++ msg ++ ". Check console for details.")],
           [ViewerCall.loadIfc modelName])
        | Except.ok none =>
          ({ st1 with isLoading := false },
           [(NotificationType.error, ERROR_MESSAGES_LOAD_FAILED ++ ". Check console for details.")],
           [ViewerCall.loadIfc modelName])
        | Except.ok (some _) =>
          let out := loadIfcClassesRun env.categories env.categoryItems
            env.defaultHiddenClasses st1.ifcClasses
          ({ st1 with isLoading := false, ifcClasses := out.1 },
           (NotificationType.success, SUCCESS_MESSAGES_FILE_LOADED sanitizedName) :: out.2.1,
           ViewerCall.loadIfc modelName :: out.2.2)

/- ----------------------------------------------------------------- -/
/- features/ifc-viewer/services/ifc-viewer.service.ts                -/
/- ----------------------------------------------------------------- -/

/-- A three.js Vector3, with exact real coordinates standing in for the
source's floating-point coordinates. -/
structure Vec3 where
  x : ℝ
  y : ℝ
  z : ℝ

/-- Vector3.add. -/
def Vec3.add (v w : Vec3) : Vec3 := ⟨v.x + w.x, v.y + w.y, v.z + w.z⟩

/-- Vector3.multiplyScalar. -/
def Vec3.multiplyScalar (v : Vec3) (s : ℝ) : Vec3 := ⟨v.x * s, v.y * s, v.z * s⟩

/-- Vector3.length. -/
noncomputable def Vec3.length (v : Vec3) : ℝ :=
  Real.sqrt (v.x ^ 2 + v.y ^ 2 + v.z ^ 2)

open Classical in
/-- Vector3.normalize: divideScalar(length() || 1), so the zero vector is left
unchanged rather than dividing by zero. -/
noncomputable def Vec3.normalize (v : Vec3) : Vec3 :=
  let l := if v.length = 0 then 1 else v.length
  ⟨v.x / l, v.y / l, v.z / l⟩

/-- A three.js Box3 (axis-aligned bounding box). -/
structure Box3 where
  min : Vec3
  max : Vec3

/-- Box3.isEmpty: some max coordinate lies strictly below the matching min. -/
def Box3.isEmpty (b : Box3) : Prop :=
  b.max.x < b.min.x ∨ b.max.y < b.min.y ∨ b.max.z < b.min.z

open Classical in
/-- Box3.getSize: zero for an empty box, max - min otherwise. -/
noncomputable def Box3.getSize (b : Box3) : Vec3 :=
  if b.isEmpty then ⟨0, 0, 0⟩
  else ⟨b.max.x - b.min.x, b.max.y - b.min.y, b.max.z - b.min.z⟩

open Classical in
/-- Box3.getCenter: zero for an empty box, the midpoint otherwise. -/
noncomputable def Box3.getCenter (b : Box3) : Vec3 :=
  if b.isEmpty then ⟨0, 0, 0⟩
  else ⟨(b.min.x + b.max.x) * (1 / 2), (b.min.y + b.max.y) * (1 / 2),
        (b.min.z + b.max.z) * (1 / 2)⟩

/-- CameraMode (shared/models/camera-mode.model.ts). -/
inductive CameraMode
  | perspective3d
  | orthographicTop
  | orthographicFront
  | orthographicSide
  deriving DecidableEq, Repr

/-- Which of the two stored camera instances this.camera currently references. -/
inductive CamRef
  | persp
  | ortho
  deriving DecidableEq, Repr

/-- The mutable state of the service's THREE.PerspectiveCamera instance. -/
structure PerspectiveCameraState where
  position : Vec3
  up : Vec3
  fov : ℝ

/-- The mutable state of the service's THREE.OrthographicCamera instance. -/
structure OrthographicCameraState where
  position : Vec3
  up : Vec3
  left : ℝ
  right : ℝ
  top : ℝ
  bottom : ℝ

/-- The mutable state of the OrbitControls instance. -/
structure OrbitControlsState where
  target : Vec3
  enableDamping : Bool
  dampingFactor : ℝ
  enableRotate : Bool
  enablePan : Bool

/-- A FRAGS.FragmentsModel handle: its id, its renderable THREE.Object3D
container (model.object, null-checked by the source), and the camera the
engine was told to stream detail for (model.useCamera). -/
structure FragmentsModel where
  modelId : Nat
  object : Option Nat
  boundCamera : Option CamRef
  deriving DecidableEq, Repr

/-- The instance fields of IfcViewerService that the verified methods touch.
canvas carries the aspect ratio when the canvas is present; components,
fragmentsManager and ifcLoader record whether those references are non-null;
scene holds the ids of the scene's children. -/
structure ViewerState where
  canvas : Option ℝ
  perspectiveCamera : Option PerspectiveCameraState
  orthographicCamera : Option OrthographicCameraState
  cameraRef : Option CamRef
  currentCameraMode : CameraMode
  controls : Option OrbitControlsState
  components : Bool
  fragmentsManager : Bool
  ifcLoader : Bool
  scene : Option (List Nat)
  currentModel : Option FragmentsModel
  cameraSignal : Option CamRef

/-- The position of the camera instance this.camera references. -/
def ViewerState.activePosition (st : ViewerState) : Option Vec3 :=
  match st.cameraRef with
  | some CamRef.persp => st.perspectiveCamera.map (fun c => c.position)
  | some CamRef.ortho => st.orthographicCamera.map (fun c => c.position)
  | none => none

/-- this.camera.position.copy(p) resolved through the active reference. -/
def ViewerState.setActivePosition (st : ViewerState) (p : Vec3) : ViewerState :=
  match st.cameraRef with
  | some CamRef.persp =>
    { st with perspectiveCamera := st.perspectiveCamera.map (fun c => { c with position := p }) }
  | some CamRef.ortho =>
    { st with orthographicCamera := st.orthographicCamera.map (fun c => { c with position := p }) }
  | none => st

/-- this.camera.up.set(...) resolved through the active reference. -/
def ViewerState.setActiveUp (st : ViewerState) (u : Vec3) : ViewerState :=
  match st.cameraRef with
  | some CamRef.persp =>
    { st with perspectiveCamera := st.perspectiveCamera.map (fun c => { c with up := u }) }
  | some CamRef.ortho =>
    { st with orthographicCamera := st.orthographicCamera.map (fun c => { c with up := u }) }
  | none => st

/-- ORTHOGRAPHIC_CAMERA_DISTANCE. -/
def ORTHOGRAPHIC_CAMERA_DISTANCE : ℝ := 50

/-- The damping factor set whenever OrbitControls are (re)built. -/
noncomputable def DAMPING_FACTOR : ℝ := 0.05

/-- IfcViewerService.setCameraMode: returns unchanged (after a warning) when
either camera instance is missing; otherwise records the mode, repositions the
selected camera relative to the current orbit target, rebuilds the orbit
controls (rotation enabled only for the perspective mode), notifies the
resident model of the active camera, and publishes the camera signal. -/
noncomputable def setCameraMode (mode : CameraMode) (st : ViewerState) : ViewerState :=
  match st.perspectiveCamera, st.orthographicCamera with
  | some _, some _ =>
    let st1 := { st with currentCameraMode := mode }
    let currentPosition := st1.activePosition.getD ⟨0, 0, 0⟩
    let currentTarget := (st1.controls.map (fun c => c.target)).getD ⟨0, 0, 0⟩
    let st2 :=
      match mode with
      | CameraMode.perspective3d =>
        ViewerState.setActivePosition { st1 with cameraRef := some CamRef.persp } currentPosition
      | CameraMode.orthographicTop =>
        ViewerState.setActiveUp
          (ViewerState.setActivePosition { st1 with cameraRef := some CamRef.ortho }
            ⟨currentTarget.x, currentTarget.y + ORTHOGRAPHIC_CAMERA_DISTANCE, currentTarget.z⟩)
          ⟨0, 0, -1⟩
      | CameraMode.orthographicFront =>
        ViewerState.setActiveUp
          (ViewerState.setActivePosition { st1 with cameraRef := some CamRef.ortho }
            ⟨currentTarget.x, currentTarget.y, currentTarget.z + ORTHOGRAPHIC_CAMERA_DISTANCE⟩)
          ⟨0, 1, 0⟩
      | CameraMode.orthographicSide =>
        ViewerState.setActiveUp
          (ViewerState.setActivePosition { st1 with cameraRef := some CamRef.ortho }
            ⟨currentTarget.x + ORTHOGRAPHIC_CAMERA_DISTANCE, currentTarget.y, currentTarget.z⟩)
          ⟨0, 1, 0⟩
    let st3 :=
      if st2.controls.isSome && st2.canvas.isSome then
        let rebuilt : OrbitControlsState :=
          { target := currentTarget,
            enableDamping := true,
            dampingFactor := DAMPING_FACTOR,
            enableRotate := decide (mode = CameraMode.perspective3d),
            enablePan := true }
        { st2 with controls := some rebuilt }
      else st2
    let st4 :=
      match st3.currentModel, st3.cameraRef with
      | some m, some r => { st3 with currentModel := some { m with boundCamera := some r } }
      | _, _ => st3
    { st4 with cameraSignal := st4.cameraRef }
  | _, _ => st

open Classical in
/-- IfcViewerService.fitCameraToModel: no-op when camera or controls are
missing; for an empty bounding box, places the camera at the default distance
20 along the normalized (1,1,1) diagonal and resets the orbit target to the
origin; otherwise frames the box using the perspective field of view or the
orthographic frustum.  The box parameter is the Box3 computed from the model
object by setFromObject. -/
noncomputable def fitCameraToModel (box : Box3) (st : ViewerState) : ViewerState :=
  match st.cameraRef, st.controls with
  | some _, some controls =>
    if box.isEmpty then
      let defaultDistance : ℝ := 20
      let cameraPosition := (Vec3.normalize ⟨1, 1, 1⟩).multiplyScalar defaultDistance
      let st1 := st.setActivePosition cameraPosition
      { st1 with controls := some { controls with target := ⟨0, 0, 0⟩ } }
    else
      let size := box.getSize
      let center := box.getCenter
      let maxDim := max (max size.x size.y) size.z
      let cameraDistance :=
        match st.cameraRef with
        | some CamRef.persp =>
          let fovRad := ((st.perspectiveCamera.map (fun c => c.fov)).getD 0) * (Real.pi / 180)
          maxDim / 2 / Real.tan (fovRad / 2) * 1.5
        | _ => maxDim * 1.5
      let st1 :=
        match st.cameraRef, st.canvas with
        | some CamRef.ortho, some aspect =>
          let frustumSize := maxDim * 1.2
          let refit : OrthographicCameraState → OrthographicCameraState := fun c =>
            { c with left := -frustumSize * aspect / 2, right := frustumSize * aspect / 2,
                     top := frustumSize / 2, bottom := -(frustumSize / 2) }
          { st with orthographicCamera := st.orthographicCamera.map refit }
        | _, _ => st
      let cameraPosition := center.add ((Vec3.normalize ⟨1, 1, 1⟩).multiplyScalar cameraDistance)
      let st2 := st1.setActivePosition cameraPosition
      { st2 with controls := some { controls with target := center } }
  | _, _ => st

/-- Events recorded while loading a file or removing a model: scene-graph
mutations, disposal calls, the loader invocation, the model becoming the
resident currentModel, and the deferred camera fit being scheduled. -/
inductive LoadEvent
  | sceneRemove (objectId : Nat)
  | disposeCalled (modelId : Nat)
  | loaderLoadCalled (fileName : String)
  | sceneAdd (objectId : Nat)
  | becameResident (modelId : Nat)
  | cameraFitScheduled
  deriving DecidableEq, Repr

/-- IfcViewerService.removePreviousModel: no-op when there is no resident
model or no scene; otherwise removes the model object from the scene (first
occurrence, as THREE.Scene.remove does), calls dispose on the model (failures
are caught and only logged), and clears the reference. -/
def removePreviousModel (st : ViewerState) : ViewerState × List LoadEvent :=
  match st.currentModel, st.scene with
  | some model, some children =>
    let step :=
      match model.object with
      | some obj => (children.erase obj, [LoadEvent.sceneRemove obj])
      | none => (children, [])
    ({ st with scene := some step.1, currentModel := none },
     step.2 ++ [LoadEvent.disposeCalled model.modelId])
  | _, _ => (st, [])

/-- Oracle outcomes for a loadIfcFile run: the loader's result (a fresh model
or a thrown error) and whether the engine's onFragmentsLoaded event fires
during the load (the event and the manual path are deduplicated through the
scene-membership check). -/
structure LoadIfcEnv where
  loadResult : Except String FragmentsModel
  eventFires : Bool

/-- IfcViewerService.loadIfcFile: returns null when the loader or fragments
manager is missing; otherwise removes the previous model, invokes the loader
(errors are rethrown), binds the active camera to the model for tile streaming
(update errors are caught and only logged), lets the onFragmentsLoaded event
add the model first when it fires, and otherwise adds the model object to the
scene itself, makes it the resident model and schedules the deferred camera
fit.  Camera binding mutates the same model object the event handler stored,
so it is applied to the model value before either insertion path. -/
def loadIfcFile (fileName : String) (env : LoadIfcEnv) (st : ViewerState) :
    ViewerState × List LoadEvent × Except String (Option FragmentsModel) :=
  if st.ifcLoader = false then (st, [], Except.ok none)
  else if st.fragmentsManager = false then (st, [], Except.ok none)
  else
    let rem := removePreviousModel st
    let st1 := rem.1
    match env.loadResult with
    | Except.error e => (st1, rem.2 ++ [LoadEvent.loaderLoadCalled fileName], Except.error e)
    | Except.ok model0 =>
      let tr1 := rem.2 ++ [LoadEvent.loaderLoadCalled fileName]
      let model :=
        match st1.cameraRef with
        | some r => { model0 with boundCamera := some r }
        | none => model0
      let afterEvent :=
        if env.eventFires then
          match st1.scene, model.object with
          | some children, some obj =>
            if children.contains obj then
              ({ st1 with currentModel := some model },
               tr1 ++ [LoadEvent.becameResident model.modelId, LoadEvent.cameraFitScheduled])
            else
              ({ st1 with scene := some (children ++ [obj]), currentModel := some model },
               tr1 ++ [LoadEvent.sceneAdd obj, LoadEvent.becameResident model.modelId,
                       LoadEvent.cameraFitScheduled])
          | _, _ => (st1, tr1)
        else (st1, tr1)
      let st2 := afterEvent.1
      let tr2 := afterEvent.2
      match st2.scene, model.object with
      | some children, some obj =>
        if children.contains obj then
          (st2, tr2, Except.ok (some model))
        else
          ({ st2 with scene := some (children ++ [obj]), currentModel := some model },
           tr2 ++ [LoadEvent.sceneAdd obj, LoadEvent.becameResident model.modelId,
                   LoadEvent.cameraFitScheduled],
           Except.ok (some model))
      | _, _ => (st2, tr2, Except.ok (some model))

/-- DOM-level effects of exportFragments: creating the object URL, triggering
the synthetic download click, and revoking the URL. -/
inductive ExportEvent
  | urlCreated
  | downloadTriggered (downloadName : String)
  | urlRevoked
  deriving DecidableEq, Repr

/-- IfcViewerService.exportFragments: resolves with only a console warning when
no model is resident; otherwise fetches the buffer, creates a blob URL,
triggers a download named fileName.frag and revokes the URL.  Any error (for
example a rejected getBuffer) is caught and logged, and the method still
resolves: the returned Except is ok on every path. -/
def exportFragments (fileName : String) (currentModel : Option FragmentsModel)
    (getBufferResult : Except String Nat) : List ExportEvent × Except String Unit :=
  match currentModel with
  | none => ([], Except.ok ())
  | some _ =>
    match getBufferResult with
    | Except.error _ => ([], Except.ok ())
    | Except.ok _ =>
      ([ExportEvent.urlCreated, ExportEvent.downloadTriggered (fileName ++ ".frag"),
        ExportEvent.urlRevoked], Except.ok ())

/-- IfcViewerComponent.onExportFragments: warns when no model is resident;
otherwise derives the sanitized base name (falling back to the string model
for an empty current file name), awaits the service export and shows a success
notification, showing the EXPORT_FAILED error notification only if the service
call rejects. -/
def onExportFragments (currentFileName : String) (currentModel : Option FragmentsModel)
    (getBufferResult : Except String Nat) :
    List (NotificationType × String) × List ExportEvent :=
  match currentModel with
  | none => ([(NotificationType.warning, ERROR_MESSAGES_NO_MODEL_LOADED)], [])
  | some _ =>
    let fileName := if currentFileName = "" then "model" else currentFileName
    let baseName := getFileNameWithoutExtension (sanitizeFileName fileName)
    let res := exportFragments baseName currentModel getBufferResult
    match res.2 with
    | Except.ok _ => ([(NotificationType.success, SUCCESS_MESSAGES_FILE_EXPORTED baseName)], res.1)
    | Except.error _ => ([(NotificationType.error, ERROR_MESSAGES_EXPORT_FAILED)], res.1)

/-- The worker-readiness polling loop of initializeFragmentsManager: while the
manager does not report initialized and the elapsed time is below the timeout,
sleep one poll interval and re-check.  ready gives the manager's initialized
flag as a function of elapsed milliseconds; the result is the elapsed time at
which the loop exits. -/
def pollLoop (ready : Nat → Bool) (elapsed : Nat) : Nat :=
  if ready elapsed = false ∧ elapsed < TIMING_WORKER_INIT_TIMEOUT then
    pollLoop ready (elapsed + TIMING_WORKER_POLL_INTERVAL)
  else elapsed
termination_by TIMING_WORKER_INIT_TIMEOUT - elapsed
decreasing_by
  simp only [TIMING_WORKER_INIT_TIMEOUT, TIMING_WORKER_POLL_INTERVAL] at *
  omega

/-- IfcViewerService.initializeFragmentsManager: no-op when the components
container is missing; obtains the fragments manager, calls init with the
worker URL (a thrown error is logged and rethrown), then polls for readiness
up to the timeout; when the manager still is not initialized it logs a warning
and proceeds.  Returns the updated state and whether the degraded-mode warning
was emitted.  The onFragmentsLoaded subscription it also installs is modelled
inside loadIfcFile.  initThrows is the oracle for the init call. -/
def initializeFragmentsManager (ready : Nat → Bool) (initThrows : Option String)
    (st : ViewerState) : Except String (ViewerState × Bool) :=
  if st.components = false then Except.ok (st, false)
  else
    let st1 := { st with fragmentsManager := true }
    match initThrows with
    | some e => Except.error e
    | none =>
      let finalElapsed := pollLoop ready 0
      if ready finalElapsed then Except.ok (st1, false)
      else Except.ok (st1, true)

/- ----------------------------------------------------------------- -/
/- Concrete states used to instantiate the theorems                  -/
/- ----------------------------------------------------------------- -/

/-- A concrete initialized viewer state: both cameras and the controls exist,
the engine handles are live, the scene holds a grid (id 3) and the object
(id 7) of the resident model (id 1). -/
noncomputable def exampleViewerState : ViewerState :=
  { canvas := some 1,
    perspectiveCamera := some { position := ⟨5, 10, 15⟩, up := ⟨0, 1, 0⟩, fov := 75 },
    orthographicCamera := some
      { position := ⟨5, 10, 15⟩, up := ⟨0, 1, 0⟩,
        left := -10, right := 10, top := 10, bottom := -10 },
    cameraRef := some CamRef.persp,
    currentCameraMode := CameraMode.perspective3d,
    controls := some
      { target := ⟨0, 0, 0⟩, enableDamping := true, dampingFactor := 0,
        enableRotate := true, enablePan := true },
    components := true,
    fragmentsManager := true,
    ifcLoader := true,
    scene := some [7, 3],
    currentModel := some { modelId := 1, object := some 7, boundCamera := none },
    cameraSignal := some CamRef.persp }

/-- A concrete file-load environment whose engine calls all succeed trivially. -/
def exampleFileLoadEnv : FileLoadEnv :=
  { readResult := Except.ok 0, loadResult := Except.ok none,
    categories := [], categoryItems := [], defaultHiddenClasses := [] }

/-- A concrete idle component state. -/
def exampleComponentState : ComponentState :=
  { isLoading := false, currentFileName := "", ifcClasses := [] }

/-- A concrete class list with two classes. -/
def exampleClasses : List IfcClass :=
  [{ name := "IFCSPACE", visible := false, itemIds := [4, 5] },
   { name := "IFCWALL", visible := true, itemIds := [1, 2, 3] }]

/-- A concrete notification list with three notifications and distinct ids. -/
def exampleNotifications : List Notification :=
  [{ id := "a", type := NotificationType.info, message := "m1", duration := 0 },
   { id := "b", type := NotificationType.error, message := "m2", duration := 3000 },
   { id := "c", type := NotificationType.success, message := "m3", duration := 0 }]

/- ----------------------------------------------------------------- -/
/- Helper lemmas                                                     -/
/- ----------------------------------------------------------------- -/

/-- Counting survives filtering for elements the filter keeps. -/
theorem count_filter_of_pos {p : Notification → Bool} {n : Notification}
    (l : List Notification) (h : p n = true) :
    (l.filter p).count n = l.count n := by
  induction l with
  | nil => rfl
  | cons m ms ih =>
    by_cases hm : p m = true
    · simp [List.filter_cons, hm, List.count_cons, ih]
    · have hm' : p m = false := by simpa using hm
      have hmn : m ≠ n := by
        intro e; subst e; simp [h] at hm'
      simp [List.filter_cons, hm', List.count_cons, ih, hmn]

/-- C8: dismissing a notification by id removes exactly the notifications with
that id, keeps every other notification (with unchanged multiplicity),
preserves the relative order of the remaining notifications (the result is a
sublist of the input), and leaves the list unchanged when no notification has
that id. -/
theorem dismiss_spec (notifications : List Notification) (id : String) :
    (dismiss id notifications).Sublist notifications ∧
    (∀ n : Notification, n.id = id → n ∉ dismiss id notifications) ∧
    (∀ n : Notification, n.id ≠ id →
      (dismiss id notifications).count n = notifications.count n) ∧
    ((∀ n ∈ notifications, n.id ≠ id) → dismiss id notifications = notifications) := by
  refine ⟨List.filter_sublist notifications, ?_, ?_, ?_⟩
  · intro n hn hmem
    rcases List.mem_filter.mp hmem with ⟨-, hkeep⟩
    rw [hn] at hkeep
    simp at hkeep
  · intro n hn
    exact count_filter_of_pos notifications (by simpa using hn)
  · intro hall
    apply List.filter_eq_self.mpr
    intro n hn
    simpa using hall n hn

/-- C8 witness: on the concrete three-notification list, dismissing id b drops
the b notification and dismissing an absent id changes nothing. -/
theorem dismiss_spec_witness :
    ({ id := "b", type := NotificationType.error, message := "m2", duration := 3000 }
        : Notification) ∉ dismiss "b" exampleNotifications ∧
    dismiss "zzz" exampleNotifications = exampleNotifications :=
  ⟨(dismiss_spec exampleNotifications "b").2.1 _ rfl,
   (dismiss_spec exampleNotifications "zzz").2.2.2 (by decide)⟩

/-- findIndexAux returns none when the predicate holds nowhere. -/
theorem findIndexAux_eq_none {p : IfcClass → Bool} :
    ∀ (l : List IfcClass) (k : Nat), (∀ c ∈ l, p c = false) → findIndexAux p l k = none := by
  intro l
  induction l with
  | nil => intro k _; rfl
  | cons c cs ih =>
    intro k hall
    have hc : p c = false := hall c (List.mem_cons_self c cs)
    simp only [findIndexAux, hc]
    exact ih (k + 1) (fun d hd => hall d (List.mem_cons_of_mem c hd))

/-- findIndexAux returns some index when the predicate holds somewhere. -/
theorem findIndexAux_isSome {p : IfcClass → Bool} :
    ∀ (l : List IfcClass) (k : Nat), (∃ c ∈ l, p c = true) →
      (findIndexAux p l k).isSome = true := by
  intro l
  induction l with
  | nil => rintro k ⟨c, hc, -⟩; cases hc
  | cons c cs ih =>
    rintro k ⟨d, hd, hp⟩
    by_cases hc : p c = true
    · simp [findIndexAux, hc]
    · have hc' : p c = false := by simpa using hc
      rcases List.mem_cons.mp hd with rfl | hd'
      · rw [hp] at hc'; cases hc'
      · simp only [findIndexAux, hc', Bool.false_eq_true, if_false]
        exact ih (k + 1) ⟨d, hd', hp⟩

/-- Characterization of a successful findIndexAux run: the found index is the
first one (from the start offset) whose element satisfies the predicate. -/
theorem findIndexAux_eq_some {p : IfcClass → Bool} :
    ∀ (l : List IfcClass) (k i : Nat), findIndexAux p l k = some i →
      k ≤ i ∧ i - k < l.length ∧ p (l.getD (i - k) defaultIfcClass) = true ∧
      ∀ j, j < i - k → p (l.getD j defaultIfcClass) = false := by
  intro l
  induction l with
  | nil => intro k i h; cases h
  | cons c cs ih =>
    intro k i h
    by_cases hc : p c = true
    · simp only [findIndexAux, hc, if_true] at h
      obtain rfl : k = i := Option.some.injEq _ _ ▸ h
      refine ⟨Nat.le_refl _, ?_, ?_, ?_⟩
      · simp [Nat.sub_self]
      · simp [Nat.sub_self, List.getD_cons_zero, hc]
      · intro j hj; omega
    · have hc' : p c = false := by simpa using hc
      simp only [findIndexAux, hc', Bool.false_eq_true, if_false] at h
      obtain ⟨hk, hlen, hval, hfirst⟩ := ih (k + 1) i h
      have hki : k < i := Nat.lt_of_succ_le hk
      have hik : i - k = (i - (k + 1)) + 1 := by omega
      refine ⟨Nat.le_of_lt hki, ?_, ?_, ?_⟩
      · simp only [List.length_cons]; omega
      · rw [hik]; simpa [List.getD_cons_succ] using hval
      · intro j hj
        cases j with
        | zero => simpa [List.getD_cons_zero] using hc'
        | succ j' =>
          rw [List.getD_cons_succ]
          exact hfirst j' (by omega)

/-- Reading back the index just written by List.set. -/
theorem getD_set_self :
    ∀ (l : List IfcClass) (i : Nat) (a d : IfcClass), i < l.length →
      (l.set i a).getD i d = a := by
  intro l
  induction l with
  | nil => intro i a d h; cases h
  | cons c cs ih =>
    intro i a d h
    cases i with
    | zero => rfl
    | succ i' =>
      simp only [List.set_cons_succ, List.getD_cons_succ]
      exact ih i' a d (by simpa [Nat.succ_lt_succ_iff] using h)

/-- List.set leaves every other index unchanged. -/
theorem getD_set_ne :
    ∀ (l : List IfcClass) (i j : Nat) (a d : IfcClass), j ≠ i →
      (l.set i a).getD j d = l.getD j d := by
  intro l
  induction l with
  | nil => intro i j a d _; rfl
  | cons c cs ih =>
    intro i j a d hne
    cases i with
    | zero =>
      cases j with
      | zero => exact absurd rfl hne
      | succ j' => simp [List.set_cons_zero, List.getD_cons_succ]
    | succ i' =>
      cases j with
      | zero => simp [List.set_cons_succ, List.getD_cons_zero]
      | succ j' =>
        simp only [List.set_cons_succ, List.getD_cons_succ]
        exact ih i' j' a d (fun e => hne (by rw [e]))

/-- C7: handling a visibility-toggle event for an existing class name calls the
visibility-set operation with exactly that class's item-id list and the new
flag, updates only that class's entry (visible flag replaced, name and item
ids kept) and leaves every other entry untouched; when no class has the event
name, the class list is returned unchanged and no visibility call is made. -/
theorem onClassVisibilityChange_spec (classes : List IfcClass) (event : ClassVisibilityEvent) :
    ((∀ c ∈ classes, c.name ≠ event.className) →
      onClassVisibilityChange event classes = (classes, [])) ∧
    ((∃ c ∈ classes, c.name = event.className) →
      ∃ i, i < classes.length ∧
        (classes.getD i defaultIfcClass).name = event.className ∧
        (∀ j, j < i → (classes.getD j defaultIfcClass).name ≠ event.className) ∧
        (onClassVisibilityChange event classes).2
          = [((classes.getD i defaultIfcClass).itemIds, event.visible)] ∧
        (onClassVisibilityChange event classes).1.length = classes.length ∧
        (onClassVisibilityChange event classes).1.getD i defaultIfcClass
          = { classes.getD i defaultIfcClass with visible := event.visible } ∧
        ∀ j, j ≠ i → (onClassVisibilityChange event classes).1.getD j defaultIfcClass
          = classes.getD j defaultIfcClass) := by
  constructor
  · intro hall
    have hnone : findIndexIfc (fun c => c.name = event.className) classes = none := by
      apply findIndexAux_eq_none
      intro c hc
      simpa using hall c hc
    simp [onClassVisibilityChange, hnone]
  · rintro ⟨c, hc, hname⟩
    have hsome : (findIndexIfc (fun c => c.name = event.className) classes).isSome = true := by
      apply findIndexAux_isSome
      exact ⟨c, hc, by simpa using hname⟩
    obtain ⟨i, hfind⟩ := Option.isSome_iff_exists.mp hsome
    obtain ⟨-, hlen, hval, hfirst⟩ := findIndexAux_eq_some classes 0 i hfind
    rw [Nat.sub_zero] at hlen hval
    refine ⟨i, hlen, by simpa using hval, ?_, ?_, ?_, ?_, ?_⟩
    · intro j hj
      have := hfirst j (by omega)
      simpa using this
    · simp [onClassVisibilityChange, hfind]
    · simp [onClassVisibilityChange, hfind, List.length_set]
    · simp only [onClassVisibilityChange, hfind]
      exact getD_set_self classes i _ _ hlen
    · intro j hj
      simp only [onClassVisibilityChange, hfind]
      exact getD_set_ne classes i j _ _ hj

/-- C7 witness: on the concrete class list, toggling IFCWALL off yields the
characterized update at index 1, and toggling an unknown name is a no-op. -/
theorem onClassVisibilityChange_spec_witness :
    onClassVisibilityChange ⟨"NOPE", true⟩ exampleClasses = (exampleClasses, []) ∧
    (∃ i, i < exampleClasses.length ∧
      (exampleClasses.getD i defaultIfcClass).name = "IFCWALL" ∧
      (∀ j, j < i → (exampleClasses.getD j defaultIfcClass).name ≠ "IFCWALL") ∧
      (onClassVisibilityChange ⟨"IFCWALL", false⟩ exampleClasses).2
        = [((exampleClasses.getD i defaultIfcClass).itemIds, false)] ∧
      (onClassVisibilityChange ⟨"IFCWALL", false⟩ exampleClasses).1.length
        = exampleClasses.length ∧
      (onClassVisibilityChange ⟨"IFCWALL", false⟩ exampleClasses).1.getD i defaultIfcClass
        = { exampleClasses.getD i defaultIfcClass with visible := false } ∧
      ∀ j, j ≠ i →
        (onClassVisibilityChange ⟨"IFCWALL", false⟩ exampleClasses).1.getD j defaultIfcClass
          = exampleClasses.getD j defaultIfcClass) :=
  ⟨(onClassVisibilityChange_spec exampleClasses ⟨"NOPE", true⟩).1 (by decide),
   (onClassVisibilityChange_spec exampleClasses ⟨"IFCWALL", false⟩).2
     ⟨{ name := "IFCWALL", visible := true, itemIds := [1, 2, 3] }, by decide, rfl⟩⟩

/-- Membership in an insertion step of the stable sort. -/
theorem mem_insertByName {x c : IfcClass} :
    ∀ {l : List IfcClass}, x ∈ insertByName c l ↔ x = c ∨ x ∈ l := by
  intro l
  induction l with
  | nil => simp [insertByName]
  | cons d ds ih =>
    by_cases hlt : nameLt d.name c.name = true
    · simp only [insertByName, if_pos hlt, List.mem_cons, ih]
      tauto
    · simp only [insertByName, if_neg hlt, List.mem_cons]

/-- sortByName preserves membership. -/
theorem mem_sortByName {x : IfcClass} :
    ∀ {l : List IfcClass}, x ∈ sortByName l ↔ x ∈ l := by
  intro l
  induction l with
  | nil => simp [sortByName]
  | cons c cs ih =>
    simp [sortByName, mem_insertByName, ih]

/-- Every class produced by buildIfcClasses has a non-empty item list (the
filter drops empty categories before sorting). -/
theorem mem_buildIfcClasses_ne_nil
    (categories : List String) (categoryItems : List (String × List Nat))
    (defaultHiddenClasses : List String) (c : IfcClass)
    (h : c ∈ buildIfcClasses categories categoryItems defaultHiddenClasses) :
    c.itemIds ≠ [] := by
  unfold buildIfcClasses at h
  rw [mem_sortByName] at h
  rcases List.mem_filter.mp h with ⟨-, hkeep⟩
  intro hnil
  rw [hnil] at hkeep
  simp at hkeep

/-- C4: on categories IFCWALL and IFCSPACE with item maps IFCWALL to 1,2,3 and
IFCSPACE to 4,5 and the default-hidden set containing IFCSPACE, the class list
comes out as IFCSPACE hidden with items 4,5 and IFCWALL visible with items
1,2,3, and applying the initial visibility issues exactly the calls 4,5 set
invisible and 1,2,3 set visible; in general every category with an empty item
list is dropped from the class list. -/
theorem loadIfcClasses_example_spec :
    buildIfcClasses ["IFCWALL", "IFCSPACE"]
        [("IFCWALL", [1, 2, 3]), ("IFCSPACE", [4, 5])] ["IFCSPACE"]
      = [{ name := "IFCSPACE", visible := false, itemIds := [4, 5] },
         { name := "IFCWALL", visible := true, itemIds := [1, 2, 3] }] ∧
    (loadIfcClassesRun ["IFCWALL", "IFCSPACE"]
        [("IFCWALL", [1, 2, 3]), ("IFCSPACE", [4, 5])] ["IFCSPACE"] []).2.2
      = [ViewerCall.getCategoriesCall,
         ViewerCall.getItemsOfCategoriesCall ["IFCWALL", "IFCSPACE"],
         ViewerCall.setItemsVisibleCall [4, 5] false,
         ViewerCall.setItemsVisibleCall [1, 2, 3] true] ∧
    (∀ (categories : List String) (categoryItems : List (String × List Nat))
       (defaultHiddenClasses : List String) (c : IfcClass),
       c ∈ buildIfcClasses categories categoryItems defaultHiddenClasses →
       c.itemIds ≠ []) :=
  ⟨by decide, by decide, mem_buildIfcClasses_ne_nil⟩

/-- C4 witness: the general empty-dropped conjunct instantiated on a concrete
category build. -/
theorem loadIfcClasses_example_spec_witness :
    ({ name := "IFCWALL", visible := true, itemIds := [1, 2, 3] } : IfcClass)
        ∈ buildIfcClasses ["IFCWALL"] [("IFCWALL", [1, 2, 3])] [] ∧
    ({ name := "IFCWALL", visible := true, itemIds := [1, 2, 3] } : IfcClass).itemIds ≠ [] :=
  ⟨by decide,
   loadIfcClasses_example_spec.2.2 ["IFCWALL"] [("IFCWALL", [1, 2, 3])] []
     { name := "IFCWALL", visible := true, itemIds := [1, 2, 3] } (by decide)⟩

/-- C3 counterexample: a file whose sanitized name has a disallowed extension
and whose size also exceeds the ceiling is rejected with only the warning
notification; no error notification is produced, refuting the claim's
unconditional oversized-file-produces-an-error-notification clause. -/
theorem oversized_bad_extension_only_warns :
    FILE_VALIDATION_MAX_FILE_SIZE < 104857601 ∧
    (onFileSelected (some ⟨"big.txt", 104857601⟩) exampleFileLoadEnv
        exampleComponentState).2.1
      = [(NotificationType.warning, ERROR_MESSAGES_INVALID_FILE_TYPE)] ∧
    (∀ n ∈ (onFileSelected (some ⟨"big.txt", 104857601⟩) exampleFileLoadEnv
        exampleComponentState).2.1, n.1 ≠ NotificationType.error) := by
  refine ⟨by decide, by decide, by decide⟩

/-- C3 (amended): a file whose sanitized name has a disallowed extension is
rejected before any service call with exactly a warning notification and no
state change; a file with an allowed extension whose size exceeds the maximum
is rejected before any service call with exactly an error notification and no
state change.  (When both checks fail only the extension warning fires, since
the extension is checked first.) -/
theorem onFileSelected_rejections (st : ComponentState) (env : FileLoadEnv) (f : FileInfo) :
    (hasAllowedExtension (sanitizeFileName f.name) FILE_VALIDATION_ALLOWED_EXTENSIONS = false →
      onFileSelected (some f) env st
        = (st, [(NotificationType.warning, ERROR_MESSAGES_INVALID_FILE_TYPE)], [])) ∧
    (hasAllowedExtension (sanitizeFileName f.name) FILE_VALIDATION_ALLOWED_EXTENSIONS = true →
      FILE_VALIDATION_MAX_FILE_SIZE < f.size →
      onFileSelected (some f) env st
        = (st, [(NotificationType.error, ERROR_MESSAGES_FILE_TOO_LARGE)], [])) := by
  constructor
  · intro hext
    simp [onFileSelected, hext]
  · intro hext hsize
    simp [onFileSelected, hext, hsize]

/-- C3 witness: the two rejection branches exercised on concrete files. -/
theorem onFileSelected_rejections_witness :
    hasAllowedExtension (sanitizeFileName "notes.txt") FILE_VALIDATION_ALLOWED_EXTENSIONS
        = false ∧
    onFileSelected (some ⟨"notes.txt", 10⟩) exampleFileLoadEnv exampleComponentState
      = (exampleComponentState,
         [(NotificationType.warning, ERROR_MESSAGES_INVALID_FILE_TYPE)], []) ∧
    hasAllowedExtension (sanitizeFileName "big.ifc") FILE_VALIDATION_ALLOWED_EXTENSIONS
        = true ∧
    FILE_VALIDATION_MAX_FILE_SIZE < 104857601 ∧
    onFileSelected (some ⟨"big.ifc", 104857601⟩) exampleFileLoadEnv exampleComponentState
      = (exampleComponentState,
         [(NotificationType.error, ERROR_MESSAGES_FILE_TOO_LARGE)], []) :=
  ⟨by decide,
   (onFileSelected_rejections exampleComponentState exampleFileLoadEnv ⟨"notes.txt", 10⟩).1
     (by decide),
   by decide, by decide,
   (onFileSelected_rejections exampleComponentState exampleFileLoadEnv
     ⟨"big.ifc", 104857601⟩).2 (by decide) (by decide)⟩

/-- Lowercasing a string yields the empty string exactly for the empty string. -/
theorem toLowerCaseStr_eq_empty_iff (e : String) : toLowerCaseStr e = "" ↔ e = "" := by
  constructor
  · intro h
    have hdata : e.data.map Char.toLower = [] := congrArg String.data h
    have hnil : e.data = [] := List.map_eq_nil_iff.mp hdata
    cases e with
    | mk data => exact congrArg String.mk hnil
  · intro h
    rw [h]
    rfl

/-- C10 counterexample: the filename .txt has its last dot at index 0 and an
empty extension, yet hasAllowedExtension is true for the allow-list containing
the empty string, refuting the for-every-allow-list clause. -/
theorem dot_leading_filename_allowlist_counterexample :
    lastIndexOfChar ".txt" '.' = 0 ∧
    getFileExtension ".txt" = "" ∧
    hasAllowedExtension ".txt" [""] = true := by decide

/-- C10 (amended): for every filename whose last dot is at index 0 or absent,
getFileExtension returns the empty string and hasAllowedExtension returns
false for every allow-list none of whose entries is the empty string;
consequently a selected file named exactly .ifc is rejected with a warning and
never reaches the loader (sanitization strips the leading dot, leaving the
extensionless name ifc), even though .ifc is the allow-listed extension. -/
theorem getFileExtension_no_dot_spec (s : String) (exts : List String)
    (hdot : lastIndexOfChar s '.' ≤ 0)
    (hne : ∀ e ∈ exts, e ≠ "") :
    getFileExtension s = "" ∧
    hasAllowedExtension s exts = false ∧
    (∀ (size : Nat) (env : FileLoadEnv) (st : ComponentState),
      onFileSelected (some ⟨".ifc", size⟩) env st
        = (st, [(NotificationType.warning, ERROR_MESSAGES_INVALID_FILE_TYPE)], [])) := by
  have hext : getFileExtension s = "" := by
    simp only [getFileExtension]
    rw [if_neg (by omega)]
  refine ⟨hext, ?_, ?_⟩
  · simp only [hasAllowedExtension, hext]
    rw [List.any_eq_false]
    intro a ha
    simp only [decide_eq_true_eq]
    intro hcontr
    exact hne a ha ((toLowerCaseStr_eq_empty_iff a).mp hcontr.symm)
  · intro size env st
    have h : (!hasAllowedExtension (sanitizeFileName ".ifc")
        FILE_VALIDATION_ALLOWED_EXTENSIONS) = true := by decide
    simp [onFileSelected, h]

/-- C10 witness: the amended statement instantiated at the extensionless name
file and the real allow-list. -/
theorem getFileExtension_no_dot_spec_witness :
    lastIndexOfChar "file" '.' ≤ 0 ∧
    getFileExtension "file" = "" ∧
    hasAllowedExtension "file" [".ifc"] = false ∧
    onFileSelected (some ⟨".ifc", 5⟩) exampleFileLoadEnv exampleComponentState
      = (exampleComponentState,
         [(NotificationType.warning, ERROR_MESSAGES_INVALID_FILE_TYPE)], []) := by
  have h := getFileExtension_no_dot_spec "file" [".ifc"] (by decide) (by decide)
  exact ⟨by decide, h.1, h.2.1, h.2.2 5 exampleFileLoadEnv exampleComponentState⟩

/-- C1: evaluation of the export pipeline at a failing run (a resident model
whose getBuffer rejects, current file name test.ifc): the service swallows the
rejection and resolves, so the component shows the success notification
Successfully exported test.frag, no error notification is produced, and no
download or object URL is created (no partial file).  This refutes the claim
that every failing export run surfaces as an error report: the user-visible
outcome is a success report. -/
theorem export_failure_shows_success_notification :
    (onExportFragments "test.ifc" (some ⟨1, some 2, none⟩) (Except.error "Export failed")).1
      = [(NotificationType.success, "Successfully exported test.frag")] ∧
    (onExportFragments "test.ifc" (some ⟨1, some 2, none⟩) (Except.error "Export failed")).2
      = [] ∧
    (∀ n ∈ (onExportFragments "test.ifc" (some ⟨1, some 2, none⟩)
        (Except.error "Export failed")).1, n.1 ≠ NotificationType.error) ∧
    (exportFragments "test" (some ⟨1, some 2, none⟩) (Except.error "Export failed")).2
      = Except.ok () :=
  ⟨by decide, by decide, by decide, rfl⟩

/-- The polling loop never drives the elapsed time past the timeout when
started on a poll-interval boundary at or below the timeout. -/
theorem pollLoop_le (ready : Nat → Bool) :
    ∀ (n e : Nat), TIMING_WORKER_INIT_TIMEOUT - e ≤ n →
      e % TIMING_WORKER_POLL_INTERVAL = 0 → e ≤ TIMING_WORKER_INIT_TIMEOUT →
      pollLoop ready e ≤ TIMING_WORKER_INIT_TIMEOUT := by
  intro n
  induction n with
  | zero =>
    intro e h1 h2 h3
    rw [pollLoop]
    have hge : ¬ e < TIMING_WORKER_INIT_TIMEOUT := by omega
    rw [if_neg (fun hc => hge hc.2)]
    exact h3
  | succ n ih =>
    intro e h1 h2 h3
    rw [pollLoop]
    by_cases hc : ready e = false ∧ e < TIMING_WORKER_INIT_TIMEOUT
    · rw [if_pos hc]
      apply ih
      · simp only [TIMING_WORKER_INIT_TIMEOUT, TIMING_WORKER_POLL_INTERVAL] at *
        omega
      · simp only [TIMING_WORKER_POLL_INTERVAL] at *
        omega
      · simp only [TIMING_WORKER_INIT_TIMEOUT, TIMING_WORKER_POLL_INTERVAL] at *
        omega
    · rw [if_neg hc]
      exact h3

/-- C9: the worker-readiness wait is bounded polling: starting from elapsed
time 0 the loop (which sleeps one 100 ms poll interval per iteration) exits at
an elapsed time of at most the 5000 ms timeout, for every readiness behaviour;
and when the manager still does not report initialized at the exit time,
initializeFragmentsManager does not fail: it returns ok, with the
degraded-mode warning flag set. -/
theorem workerPolling_bounded_nonfatal (ready : Nat → Bool) (st : ViewerState)
    (hcomp : st.components = true)
    (hnotready : ready (pollLoop ready 0) = false) :
    pollLoop ready 0 ≤ TIMING_WORKER_INIT_TIMEOUT ∧
    initializeFragmentsManager ready none st
      = Except.ok ({ st with fragmentsManager := true }, true) := by
  constructor
  · exact pollLoop_le ready TIMING_WORKER_INIT_TIMEOUT 0 (by omega) rfl (by omega)
  · simp [initializeFragmentsManager, hcomp, hnotready]

/-- C9 witness: with a worker that never becomes ready and the concrete
initialized state, the loop exits within the timeout and initialization
proceeds with the warning flag. -/
theorem workerPolling_bounded_nonfatal_witness :
    exampleViewerState.components = true ∧
    pollLoop (fun _ => false) 0 ≤ TIMING_WORKER_INIT_TIMEOUT ∧
    initializeFragmentsManager (fun _ => false) none exampleViewerState
      = Except.ok ({ exampleViewerState with fragmentsManager := true }, true) := by
  have h := workerPolling_bounded_nonfatal (fun _ => false) exampleViewerState rfl rfl
  exact ⟨rfl, h.1, h.2⟩

/-- Boolean membership check agrees with membership (negative form). -/
theorem contains_eq_false_of_not_mem {a : Nat} {l : List Nat} (h : a ∉ l) :
    l.contains a = false := by
  simpa using h

/-- Boolean membership check agrees with membership (positive form). -/
theorem contains_eq_true_of_mem {a : Nat} {l : List Nat} (h : a ∈ l) :
    l.contains a = true := by
  simpa using h

/-- C2: for a successful load into a state with a resident model whose object
is in the scene, loadIfcFile removes that object from the scene and calls
dispose on the old model before the new model is loaded, added and made
resident: the final scene holds the new object but no longer the old one, the
resident model is the newly loaded one, and the recorded event trace is
exactly remove-old, dispose-old, loader-load, add-new, became-resident-new,
camera-fit — so the disposal strictly precedes the new model entering the
scene and becoming resident, and the two model objects are never in the scene
together. -/
theorem loadIfcFile_disposes_previous (st : ViewerState) (env : LoadIfcEnv)
    (fileName : String) (oldModel newModel : FragmentsModel) (oldObj newObj : Nat)
    (children : List Nat)
    (hloader : st.ifcLoader = true)
    (hfm : st.fragmentsManager = true)
    (hcur : st.currentModel = some oldModel)
    (hobj : oldModel.object = some oldObj)
    (hscene : st.scene = some children)
    (hnodup : children.Nodup)
    (hmem : oldObj ∈ children)
    (hres : env.loadResult = Except.ok newModel)
    (hnewobj : newModel.object = some newObj)
    (hfresh : newObj ∉ children) :
    (loadIfcFile fileName env st).1.scene
      = some (children.erase oldObj ++ [newObj]) ∧
    oldObj ∉ children.erase oldObj ++ [newObj] ∧
    (∃ m, (loadIfcFile fileName env st).1.currentModel = some m ∧
       m.modelId = newModel.modelId ∧ m.object = some newObj ∧
       (loadIfcFile fileName env st).2.2 = Except.ok (some m)) ∧
    (loadIfcFile fileName env st).2.1
      = [LoadEvent.sceneRemove oldObj, LoadEvent.disposeCalled oldModel.modelId,
         LoadEvent.loaderLoadCalled fileName, LoadEvent.sceneAdd newObj,
         LoadEvent.becameResident newModel.modelId, LoadEvent.cameraFitScheduled] := by
  have hne : oldObj ≠ newObj := fun e => hfresh (e ▸ hmem)
  have hnotmem_erase : oldObj ∉ children.erase oldObj := by
    intro hx
    exact absurd rfl ((List.Nodup.mem_erase_iff hnodup).mp hx).1
  have hnotin : oldObj ∉ children.erase oldObj ++ [newObj] := by
    intro hx
    rcases List.mem_append.mp hx with h | h
    · exact hnotmem_erase h
    · exact hne (List.mem_singleton.mp h)
  have hfresh_erase : newObj ∉ children.erase oldObj :=
    fun hx => hfresh (List.erase_subset _ _ hx)
  have hc1 : (children.erase oldObj).contains newObj = false :=
    contains_eq_false_of_not_mem hfresh_erase
  have hc2 : ((children.erase oldObj) ++ [newObj]).contains newObj = true :=
    contains_eq_true_of_mem (by simp)
  refine ⟨?_, hnotin, ?_, ?_⟩ <;>
  · cases hef : env.eventFires <;> cases hcr : st.cameraRef <;>
      simp [loadIfcFile, removePreviousModel, hloader, hfm, hcur, hobj, hscene, hres,
        hef, hcr, hnewobj, hc1, hc2, hfresh_erase]

/-- C2 witness: loading model 2 (object 9) into the concrete state whose scene
holds the resident model 1 (object 7) and the grid (3). -/
theorem loadIfcFile_disposes_previous_witness :
    (loadIfcFile "m" ⟨Except.ok ⟨2, some 9, none⟩, false⟩ exampleViewerState).1.scene
      = some (([7, 3] : List Nat).erase 7 ++ [9]) ∧
    (7 : Nat) ∉ ([7, 3] : List Nat).erase 7 ++ [9] ∧
    (∃ m, (loadIfcFile "m" ⟨Except.ok ⟨2, some 9, none⟩, false⟩
        exampleViewerState).1.currentModel = some m ∧
      m.modelId = 2 ∧ m.object = some 9 ∧
      (loadIfcFile "m" ⟨Except.ok ⟨2, some 9, none⟩, false⟩ exampleViewerState).2.2
        = Except.ok (some m)) ∧
    (loadIfcFile "m" ⟨Except.ok ⟨2, some 9, none⟩, false⟩ exampleViewerState).2.1
      = [LoadEvent.sceneRemove 7, LoadEvent.disposeCalled 1,
         LoadEvent.loaderLoadCalled "m", LoadEvent.sceneAdd 9,
         LoadEvent.becameResident 2, LoadEvent.cameraFitScheduled] :=
  loadIfcFile_disposes_previous exampleViewerState ⟨Except.ok ⟨2, some 9, none⟩, false⟩
    "m" ⟨1, some 7, none⟩ ⟨2, some 9, none⟩ 7 9 [7, 3]
    rfl rfl rfl rfl rfl (by decide) (by decide) rfl rfl (by decide)

/-- C6: from any state whose two camera instances, controls and canvas are
initialized, switching to any supported mode and then back to the perspective
mode leaves the active camera reference on the perspective camera instance
(which still exists), and the orbit controls rebuilt by the second switch have
rotation re-enabled. -/
theorem setCameraMode_roundtrip_perspective (st : ViewerState) (mode : CameraMode)
    (pc : PerspectiveCameraState) (oc : OrthographicCameraState)
    (c : OrbitControlsState) (a : ℝ)
    (hp : st.perspectiveCamera = some pc)
    (ho : st.orthographicCamera = some oc)
    (hc : st.controls = some c)
    (hcv : st.canvas = some a) :
    (setCameraMode CameraMode.perspective3d (setCameraMode mode st)).cameraRef
      = some CamRef.persp ∧
    (setCameraMode CameraMode.perspective3d (setCameraMode mode st)).perspectiveCamera.isSome
      = true ∧
    ∃ c2, (setCameraMode CameraMode.perspective3d (setCameraMode mode st)).controls
        = some c2 ∧ c2.enableRotate = true := by
  cases hm : st.currentModel <;> cases mode <;>
    simp [setCameraMode, ViewerState.setActivePosition, ViewerState.setActiveUp,
      ViewerState.activePosition, hp, ho, hc, hcv, hm]

/-- C6 witness: the round trip through the orthographic top view on the
concrete initialized state. -/
theorem setCameraMode_roundtrip_perspective_witness :
    (setCameraMode CameraMode.perspective3d
        (setCameraMode CameraMode.orthographicTop exampleViewerState)).cameraRef
      = some CamRef.persp ∧
    (setCameraMode CameraMode.perspective3d
        (setCameraMode CameraMode.orthographicTop exampleViewerState)).perspectiveCamera.isSome
      = true ∧
    ∃ c2, (setCameraMode CameraMode.perspective3d
        (setCameraMode CameraMode.orthographicTop exampleViewerState)).controls
      = some c2 ∧ c2.enableRotate = true :=
  setCameraMode_roundtrip_perspective exampleViewerState CameraMode.orthographicTop
    { position := ⟨5, 10, 15⟩, up := ⟨0, 1, 0⟩, fov := 75 }
    { position := ⟨5, 10, 15⟩, up := ⟨0, 1, 0⟩,
      left := -10, right := 10, top := 10, bottom := -10 }
    { target := ⟨0, 0, 0⟩, enableDamping := true, dampingFactor := 0,
      enableRotate := true, enablePan := true }
    1 rfl rfl rfl rfl

/-- The square root of three is positive. -/
theorem sqrt_three_pos : (0 : ℝ) < Real.sqrt 3 :=
  Real.sqrt_pos.mpr (by norm_num)

/-- Normalizing the diagonal (1,1,1) divides each component by the square root
of three. -/
theorem normalize_diag :
    Vec3.normalize ⟨1, 1, 1⟩
      = ⟨1 / Real.sqrt 3, 1 / Real.sqrt 3, 1 / Real.sqrt 3⟩ := by
  have hlen : Vec3.length ⟨1, 1, 1⟩ = Real.sqrt 3 := by
    simp [Vec3.length]
    norm_num
  simp [Vec3.normalize, hlen, ne_of_gt sqrt_three_pos]

/-- The default camera position produced for an empty box has distance 20 from
the origin. -/
theorem diag_position_length :
    Vec3.length ⟨1 / Real.sqrt 3 * 20, 1 / Real.sqrt 3 * 20, 1 / Real.sqrt 3 * 20⟩ = 20 := by
  have h3 : Real.sqrt 3 ^ 2 = 3 := Real.sq_sqrt (by norm_num)
  have hx : (1 / Real.sqrt 3 * 20 : ℝ) ^ 2 = 400 / 3 := by
    rw [mul_pow, div_pow, one_pow, h3]
    norm_num
  simp only [Vec3.length, hx]
  have hsum : (400 / 3 + 400 / 3 + 400 / 3 : ℝ) = 400 := by norm_num
  rw [hsum]
  have h400 : (400 : ℝ) = 20 ^ 2 := by norm_num
  rw [h400, Real.sqrt_sq (by norm_num : (0 : ℝ) ≤ 20)]

/-- C5: fitting the camera to an empty bounding box, from any state in which
the active camera and the controls are initialized, deterministically places
the camera at the default distance 20 along the normalized (1,1,1) diagonal
(the position has equal positive coordinates and norm exactly 20) and resets
the orbit target to the origin. -/
theorem fitCameraToModel_empty_box_default (st : ViewerState) (box : Box3) (r : CamRef)
    (c : OrbitControlsState)
    (hcam : st.cameraRef = some r)
    (hctl : st.controls = some c)
    (hwf : st.activePosition.isSome = true)
    (hbox : box.isEmpty) :
    ∃ p, (fitCameraToModel box st).activePosition = some p ∧
      p.x = p.y ∧ p.y = p.z ∧ 0 < p.x ∧ Vec3.length p = 20 ∧
      (fitCameraToModel box st).controls = some { c with target := ⟨0, 0, 0⟩ } := by
  have hp20 : (Vec3.normalize ⟨1, 1, 1⟩).multiplyScalar 20
      = ⟨1 / Real.sqrt 3 * 20, 1 / Real.sqrt 3 * 20, 1 / Real.sqrt 3 * 20⟩ := by
    rw [normalize_diag]
    rfl
  have hxpos : (0 : ℝ) < 1 / Real.sqrt 3 * 20 :=
    mul_pos (div_pos one_pos sqrt_three_pos) (by norm_num)
  cases r with
  | persp =>
    have hsome : st.perspectiveCamera.isSome = true := by
      simpa [ViewerState.activePosition, hcam] using hwf
    obtain ⟨pc, hpc⟩ := Option.isSome_iff_exists.mp hsome
    refine ⟨(Vec3.normalize ⟨1, 1, 1⟩).multiplyScalar 20, ?_, ?_, ?_, ?_, ?_, ?_⟩
    · simp [fitCameraToModel, ViewerState.setActivePosition, ViewerState.activePosition,
        hcam, hctl, hpc, hbox]
    · rw [hp20]
    · rw [hp20]
    · rw [hp20]
      exact hxpos
    · rw [hp20]
      exact diag_position_length
    · simp [fitCameraToModel, ViewerState.setActivePosition, hcam, hctl, hpc, hbox]
  | ortho =>
    have hsome : st.orthographicCamera.isSome = true := by
      simpa [ViewerState.activePosition, hcam] using hwf
    obtain ⟨oc, hoc⟩ := Option.isSome_iff_exists.mp hsome
    refine ⟨(Vec3.normalize ⟨1, 1, 1⟩).multiplyScalar 20, ?_, ?_, ?_, ?_, ?_, ?_⟩
    · simp [fitCameraToModel, ViewerState.setActivePosition, ViewerState.activePosition,
        hcam, hctl, hoc, hbox]
    · rw [hp20]
    · rw [hp20]
    · rw [hp20]
      exact hxpos
    · rw [hp20]
      exact diag_position_length
    · simp [fitCameraToModel, ViewerState.setActivePosition, hcam, hctl, hoc, hbox]

/-- C5 witness: fitting to a concrete empty box (max below min) on the
concrete initialized state. -/
theorem fitCameraToModel_empty_box_default_witness :
    Box3.isEmpty ⟨⟨1, 1, 1⟩, ⟨0, 0, 0⟩⟩ ∧
    ∃ p, (fitCameraToModel ⟨⟨1, 1, 1⟩, ⟨0, 0, 0⟩⟩ exampleViewerState).activePosition
        = some p ∧
      p.x = p.y ∧ p.y = p.z ∧ 0 < p.x ∧ Vec3.length p = 20 ∧
      (fitCameraToModel ⟨⟨1, 1, 1⟩, ⟨0, 0, 0⟩⟩ exampleViewerState).controls
        = some { target := ⟨0, 0, 0⟩, enableDamping := true, dampingFactor := 0,
                 enableRotate := true, enablePan := true } :=
  ⟨Or.inl zero_lt_one,
   fitCameraToModel_empty_box_default exampleViewerState ⟨⟨1, 1, 1⟩, ⟨0, 0, 0⟩⟩
     CamRef.persp
     { target := ⟨0, 0, 0⟩, enableDamping := true, dampingFactor := 0,
       enableRotate := true, enablePan := true }
     rfl rfl rfl (Or.inl zero_lt_one)⟩
